import Mathlib

/-!
Verification of the three-stage debate orchestration system
(`src/models.py`, `src/agents.py`, `src/orchestrator.py`, `src/storage.py`).

The Python code is shallowly embedded: Python strings are sequences of
characters (`String` viewed through `String.data`), subprocess execution is
modelled by an oracle assigning an outcome to each launched command, and
wall-clock readings are part of the oracle's outcome.  Agent execution and
`run_debate` additionally return a trace of process events (spawn / kill /
wait) and the list of records handed to the storage backend, so that claims
about side effects ("zero process invocations", "record handed to the
store") are statable.
-/

namespace Debate

/-- Role of a debate agent, the `Literal["FOR", "AGAINST", "SYNTHESIS"]`
field of `AgentConfig` in `src/models.py`. -/
inductive Role where
  | FOR
  | AGAINST
  | SYNTHESIS
deriving DecidableEq, Repr

/-- Rendering of a role, used in validation error messages. -/
def roleToString : Role → String
  | .FOR => "FOR"
  | .AGAINST => "AGAINST"
  | .SYNTHESIS => "SYNTHESIS"

/-- Model provider, the `Literal["claude", "gemini"]` field of `AgentConfig`
in `src/models.py`. -/
inductive Provider where
  | claude
  | gemini
deriving DecidableEq, Repr

/-- String form of the provider (the `AgentResponse.model_provider` field is
a plain `str` in `src/models.py`). -/
def Provider.toStr : Provider → String
  | .claude => "claude"
  | .gemini => "gemini"

/-- `DebateTopic` from `src/models.py`: two required `str` fields, with no
value-level validators declared. -/
structure DebateTopic where
  title : String
  description : String
deriving DecidableEq, Repr

/-- Construction of a `DebateTopic`, embedding pydantic validation of the
model as declared in `src/models.py`: both fields are required (which in the
embedding is enforced by the function arity) and no further validator
constrains their values, so construction never fails. -/
def mk_topic (title description : String) : Except String DebateTopic :=
  Except.ok ⟨title, description⟩

/-- `AgentConfig` from `src/models.py`.  `temperature` (a float in `[0,1]`)
is embedded as a rational; `model_id` is the resolved model identifier
(auto-generated by `model_post_init`, carried here as a plain field since no
claim depends on the lookup table). -/
structure AgentConfig where
  name : String
  role : Role
  model_provider : Provider
  model_name : String
  model_id : String
  temperature : Rat
  max_tokens : Nat
  timeout_seconds : Nat
deriving DecidableEq, Repr

/-- `AgentResponse` from `src/models.py`. -/
structure AgentResponse where
  agent_name : String
  role : Role
  model_provider : String
  model_name : String
  response_text : String
  execution_time_ms : Nat
  success : Bool
  error_message : Option String
deriving DecidableEq, Repr

/-- `DebateRecord` from `src/models.py`.  `created_at` is an abstract
timestamp. -/
structure DebateRecord where
  debate_id : String
  topic : DebateTopic
  agents_config : List AgentConfig
  agent_responses : List AgentResponse
  total_execution_time_ms : Nat
  created_at : Nat
deriving DecidableEq, Repr

/-! ## Python string primitives

Python `str` operations used by the source, embedded over `String.data`
(structural recursion, so that everything evaluates inside the kernel). -/

/-- Whitespace as stripped by Python `str.strip()` (ASCII part). -/
def pyIsSpace (c : Char) : Bool :=
  c = ' ' || c = '\t' || c = '\n' || c = '\r' || c = Char.ofNat 11 || c = Char.ofNat 12

/-- Python `str.strip()`: remove whitespace from both ends. -/
def pyStrip (s : String) : String :=
  ⟨((s.data.dropWhile pyIsSpace).reverse.dropWhile pyIsSpace).reverse⟩

/-- Python `str.lower()` (character-wise). -/
def pyLower (s : String) : String :=
  ⟨s.data.map Char.toLower⟩

/-- Python `needle in haystack` substring test. -/
def pyContains (haystack needle : String) : Bool :=
  decide (needle.data <:+: haystack.data)

/-- Splitting a character list at newline characters, the semantics of
Python `text.split("\n")`. -/
def split_lines : List Char → List (List Char)
  | [] => [[]]
  | c :: cs =>
    match split_lines cs with
    | [] => [[]]
    | g :: gs => if c = '\n' then [] :: g :: gs else (c :: g) :: gs

/-- Python `text.split("\n")`. -/
def pySplitNl (s : String) : List String :=
  (split_lines s.data).map fun l => ⟨l⟩

/-- Python `"\n".join(lines)`. -/
def pyJoinNl : List String → String
  | [] => ""
  | [s] => s
  | s :: rest => s ++ "\n" ++ pyJoinNl rest

/-! ## Prompt builders (`src/orchestrator.py`) -/

/-- `build_for_prompt` from `src/orchestrator.py`: the f-string rendered as
explicit concatenation. -/
def build_for_prompt (topic : DebateTopic) : String :=
  "You are arguing in favor of the following topic:\n\nTopic: " ++ topic.title ++
  "\nDescription: " ++ topic.description ++
  "\n\nProvide a clear, compelling argument in favor of this topic.\nBe specific and evidence-based.\nKeep your response focused and substantive."

/-- `build_against_prompt` from `src/orchestrator.py`. -/
def build_against_prompt (topic : DebateTopic) (for_response : String) : String :=
  "You are arguing against the following topic:\n\nTopic: " ++ topic.title ++
  "\nDescription: " ++ topic.description ++
  "\n\nThe argument in favor of this topic was:\n---\n" ++ for_response ++
  "\n---\n\nProvide a clear, compelling counter-argument against this topic.\nAddress the points made in the FOR argument.\nBe specific and evidence-based.\nKeep your response focused and substantive."

/-- `build_synthesis_prompt` from `src/orchestrator.py`. -/
def build_synthesis_prompt (topic : DebateTopic) (for_response against_response : String) : String :=
  "You are synthesizing a debate on the following topic:\n\nTopic: " ++ topic.title ++
  "\nDescription: " ++ topic.description ++
  "\n\nARGUMENT IN FAVOR:\n---\n" ++ for_response ++
  "\n---\n\nARGUMENT AGAINST:\n---\n" ++ against_response ++
  "\n---\n\nProvide a balanced synthesis that:\n1. Acknowledges the strengths of both arguments\n2. Identifies the weaknesses in both arguments\n3. Synthesizes a nuanced perspective that considers both viewpoints\n4. Offers insights on how to resolve the tensions between the two positions\n\nKeep your synthesis thoughtful and balanced."

/-! ## Agent runner (`src/agents.py`)

A subprocess launch is modelled by an oracle mapping the launched command to
its outcome.  `completes` carries the decoded stdout / stderr and the
measured elapsed wall time; `timesOut` carries the elapsed wall time
measured when the timeout fires (the value the Python code computes and then
discards); `notFound` is `FileNotFoundError` at launch; `raises` is any
other exception, carrying its message. -/

/-- Outcome of one subprocess launch, supplied by the environment. -/
inductive SubprocBehavior where
  | completes (stdout stderr : String) (elapsed_ms : Nat)
  | timesOut (elapsed_ms : Nat)
  | notFound
  | raises (msg : String)
deriving DecidableEq, Repr

/-- Process-level events performed by `_execute_subprocess`, recorded so
that claims about side effects are statable. -/
inductive ProcEvent where
  | spawn (command : List String)
  | kill
  | wait
deriving DecidableEq, Repr

/-- Environment oracle: outcome of launching a given command. -/
abbrev Oracle := List String → SubprocBehavior

/-- Message of the `TimeoutError` raised in `Agent._execute_subprocess`. -/
def timeout_error_message (config : AgentConfig) : String :=
  "Agent " ++ config.name ++ " timed out after " ++ toString config.timeout_seconds ++ "s"

/-- Message of the `RuntimeError` raised in `Agent._execute_subprocess`
when the CLI executable is missing (`command[0]` is the executable name). -/
def not_found_message (command : List String) : String :=
  "CLI command not found: " ++ command.headD ""

/-- `Agent._parse_response` from `src/agents.py` (used by `ClaudeAgent`):
`stdout.strip() if stdout else ""`, success, no error message. -/
def Agent.parse_response (config : AgentConfig) (stdout : String) (stderr : String)
    (execution_time_ms : Nat) : AgentResponse :=
  { agent_name := config.name
    role := config.role
    model_provider := config.model_provider.toStr
    model_name := config.model_name
    response_text := if stdout = "" then "" else pyStrip stdout
    execution_time_ms := execution_time_ms
    success := true
    error_message := none }

/-- Response built in the `except TimeoutError` branch of `execute` (both
agents): empty text, `timeout_seconds * 1000` as the elapsed time, failure
with the timeout message. -/
def timeout_response (config : AgentConfig) : AgentResponse :=
  { agent_name := config.name
    role := config.role
    model_provider := config.model_provider.toStr
    model_name := config.model_name
    response_text := ""
    execution_time_ms := config.timeout_seconds * 1000
    success := false
    error_message := some (timeout_error_message config) }

/-- Response built in the generic `except Exception` branch of `execute`
(both agents): empty text, zero elapsed time, failure with the caught
message. -/
def failure_response (config : AgentConfig) (msg : String) : AgentResponse :=
  { agent_name := config.name
    role := config.role
    model_provider := config.model_provider.toStr
    model_name := config.model_name
    response_text := ""
    execution_time_ms := 0
    success := false
    error_message := some msg }

/-- `ClaudeAgent._build_command` from `src/agents.py`. -/
def ClaudeAgent.build_command (config : AgentConfig) (prompt : String) : List String :=
  ["claude", "--model", config.model_id, "--print", prompt]

/-- `ClaudeAgent.execute` from `src/agents.py`: launch the command, and map
every outcome of `_execute_subprocess` to an `AgentResponse` — the
`TimeoutError` branch yields `timeout_response`, the `FileNotFoundError`
raised at launch is rethrown by `_execute_subprocess` as a `RuntimeError`
and caught by the generic `except Exception` branch, as is any other
exception.  The event trace records the launch and, on timeout, the
`process.kill()` / `await process.wait()` pair. -/
def ClaudeAgent.execute (oracle : Oracle) (config : AgentConfig) (prompt : String) :
    AgentResponse × List ProcEvent :=
  let command := ClaudeAgent.build_command config prompt
  match oracle command with
  | .completes stdout stderr t => (Agent.parse_response config stdout stderr t, [.spawn command])
  | .timesOut _ => (timeout_response config, [.spawn command, .kill, .wait])
  | .notFound => (failure_response config (not_found_message command), [.spawn command])
  | .raises msg => (failure_response config msg, [.spawn command])

/-- `GeminiAgent._build_command` from `src/agents.py`. -/
def GeminiAgent.build_command (config : AgentConfig) (prompt : String) : List String :=
  ["gemini", "--yolo", "-m", config.model_id, prompt]

/-- `GeminiAgent._clean_gemini_output` from `src/agents.py`: drop every
line that contains `"Loaded cached credentials"` or whose lowercasing
contains `"credentials"`, rejoin with newlines, strip. -/
def GeminiAgent.clean_gemini_output (text : String) : String :=
  let lines := pySplitNl text
  let cleaned_lines := lines.filter fun line =>
    !(pyContains line "Loaded cached credentials") && !(pyContains (pyLower line) "credentials")
  pyStrip (pyJoinNl cleaned_lines)

/-- `GeminiAgent._parse_response` from `src/agents.py`. -/
def GeminiAgent.parse_response (config : AgentConfig) (stdout : String) (stderr : String)
    (execution_time_ms : Nat) : AgentResponse :=
  { agent_name := config.name
    role := config.role
    model_provider := config.model_provider.toStr
    model_name := config.model_name
    response_text := if stdout = "" then "" else GeminiAgent.clean_gemini_output stdout
    execution_time_ms := execution_time_ms
    success := true
    error_message := none }

/-- `GeminiAgent.execute` from `src/agents.py`; same failure handling as
`ClaudeAgent.execute`, with the Gemini command and response parsing. -/
def GeminiAgent.execute (oracle : Oracle) (config : AgentConfig) (prompt : String) :
    AgentResponse × List ProcEvent :=
  let command := GeminiAgent.build_command config prompt
  match oracle command with
  | .completes stdout stderr t => (GeminiAgent.parse_response config stdout stderr t, [.spawn command])
  | .timesOut _ => (timeout_response config, [.spawn command, .kill, .wait])
  | .notFound => (failure_response config (not_found_message command), [.spawn command])
  | .raises msg => (failure_response config msg, [.spawn command])

/-- Command launched for a given config, following the provider dispatch of
`create_agent` in `src/agents.py`. -/
def agent_command (config : AgentConfig) (prompt : String) : List String :=
  match config.model_provider with
  | .claude => ClaudeAgent.build_command config prompt
  | .gemini => GeminiAgent.build_command config prompt

/-- `create_agent(config).execute(prompt)`: provider dispatch from
`create_agent` in `src/agents.py` followed by the agent's `execute`.  The
`else` branch of `create_agent` (unknown provider) is unreachable because
`model_provider` is a validated two-value literal. -/
def create_agent_execute (oracle : Oracle) (config : AgentConfig) (prompt : String) :
    AgentResponse × List ProcEvent :=
  match config.model_provider with
  | .claude => ClaudeAgent.execute oracle config prompt
  | .gemini => GeminiAgent.execute oracle config prompt

/-! ## Orchestrator (`src/orchestrator.py`) -/

/-- Errors surfaced by `run_debate`: `ValueError` from configuration
validation, and the storage backend's failure (any exception raised by
`save_debate`, modelled abstractly). -/
inductive PyError where
  | valueError (msg : String)
  | storageError (msg : String)
deriving DecidableEq, Repr

/-- `_validate_agents_config` from `src/orchestrator.py`: length must be 3,
the role set must equal `{"FOR", "AGAINST", "SYNTHESIS"}`, and no role may
repeat (`len(roles) != len(set(roles))`). -/
def _validate_agents_config (agents_config : List AgentConfig) : Except PyError Unit :=
  if agents_config.length ≠ 3 then
    .error (.valueError ("Debate requires exactly 3 agents, got " ++ toString agents_config.length))
  else
    let roles := agents_config.map fun a => a.role
    if roles.toFinset ≠ ({Role.FOR, Role.AGAINST, Role.SYNTHESIS} : Finset Role) then
      .error (.valueError ("Agents must have roles FOR, AGAINST, SYNTHESIS. Got: " ++
        String.intercalate ", " (roles.map roleToString)))
    else if roles.length ≠ roles.dedup.length then
      .error (.valueError "Duplicate agent roles found")
    else
      .ok ()

/-- The `role_order` key used by `_sort_agents_by_role`. -/
def role_order : Role → Nat
  | .FOR => 0
  | .AGAINST => 1
  | .SYNTHESIS => 2

/-- `_sort_agents_by_role` from `src/orchestrator.py`:
`sorted(agents_config, key=lambda a: role_order[a.role])`.  Python `sorted`
is a stable sort, and a stable sort by a three-valued key is extensionally
the concatenation of the three key buckets in key order, which is how it is
embedded here. -/
def _sort_agents_by_role (agents_config : List AgentConfig) : List AgentConfig :=
  (agents_config.filter fun a => role_order a.role = 0) ++
  (agents_config.filter fun a => role_order a.role = 1) ++
  (agents_config.filter fun a => role_order a.role = 2)

/-- Environment data consumed by `run_debate` that the embedding does not
compute: the generated `debate_id` (uuid4), the creation timestamp, and the
total wall-clock reading `(time.time() - start_time) * 1000`. -/
structure RunEnv where
  debate_id : String
  created_at : Nat
  total_time_ms : Nat

instance {ε α : Type} [DecidableEq ε] [DecidableEq α] : DecidableEq (Except ε α) := fun x y =>
  match x, y with
  | .ok a, .ok b => if h : a = b then .isTrue (by rw [h]) else .isFalse (by simp [h])
  | .error a, .error b => if h : a = b then .isTrue (by rw [h]) else .isFalse (by simp [h])
  | .ok _, .error _ => .isFalse (by simp)
  | .error _, .ok _ => .isFalse (by simp)

/-- Observable outcome of a `run_debate` call: its return value or raised
error, the process events performed, and the records handed to the storage
backend. -/
structure RunResult where
  result : Except PyError DebateRecord
  events : List ProcEvent
  saved : List DebateRecord
deriving DecidableEq, Repr

/-- Steps 3–7 of `run_debate` (`src/orchestrator.py`), for agents already
sorted into execution order `[a0, a1, a2]`: execute FOR / AGAINST /
SYNTHESIS sequentially — each later prompt built unconditionally from the
earlier responses' text — assemble the `DebateRecord` (agent configs in the
caller-supplied order, responses in execution order), hand it to the
storage backend, and return it; a storage failure propagates as the call's
error. -/
def run_stages (env : RunEnv) (oracle : Oracle) (save : DebateRecord → Except PyError String)
    (topic : DebateTopic) (agents_config : List AgentConfig)
    (a0 a1 a2 : AgentConfig) : RunResult :=
  let step0 := create_agent_execute oracle a0 (build_for_prompt topic)
  let for_response := step0.1
  let step1 := create_agent_execute oracle a1 (build_against_prompt topic for_response.response_text)
  let against_response := step1.1
  let step2 := create_agent_execute oracle a2
    (build_synthesis_prompt topic for_response.response_text against_response.response_text)
  let synthesis_response := step2.1
  let debate : DebateRecord :=
    { debate_id := env.debate_id
      topic := topic
      agents_config := agents_config
      agent_responses := [for_response, against_response, synthesis_response]
      total_execution_time_ms := env.total_time_ms
      created_at := env.created_at }
  match save debate with
  | .error e => ⟨.error e, step0.2 ++ step1.2 ++ step2.2, [debate]⟩
  | .ok _ => ⟨.ok debate, step0.2 ++ step1.2 ++ step2.2, [debate]⟩

/-- `DebateOrchestrator.run_debate` from `src/orchestrator.py`: validate the
configs, sort them into execution order, then run the three stages
(`run_stages`).  The fallback match arm embeds the `IndexError` Python would
raise on `agents[0..2]` and is unreachable because validation forces
length 3. -/
def run_debate (env : RunEnv) (oracle : Oracle) (save : DebateRecord → Except PyError String)
    (topic : DebateTopic) (agents_config : List AgentConfig) : RunResult :=
  match _validate_agents_config agents_config with
  | .error e => ⟨.error e, [], []⟩
  | .ok _ =>
    match _sort_agents_by_role agents_config with
    | [a0, a1, a2] => run_stages env oracle save topic agents_config a0 a1 a2
    | _ => ⟨.error (.valueError "list index out of range"), [], []⟩

/-! ## Spec-side definitions

These definitions follow the wording of the specification (not the source)
and exist to be compared against the source-derived definitions above. -/

/-- Validity of a config list as the claims word it: three configs whose
role multiset is exactly `{FOR, AGAINST, SYNTHESIS}` (no duplicate or
missing role). -/
def valid_roles (agents_config : List AgentConfig) : Prop :=
  agents_config.length = 3 ∧
  (↑(agents_config.map fun a => a.role) : Multiset Role) =
    ({Role.FOR, Role.AGAINST, Role.SYNTHESIS} : Multiset Role)

instance (agents_config : List AgentConfig) : Decidable (valid_roles agents_config) := by
  unfold valid_roles; infer_instance

/-- Cleaning of Gemini stdout as claim C10 words it: remove every line
containing the substring `"credentials"` in any letter case, rejoin the
remaining lines with newlines, and strip surrounding whitespace. -/
def clean_per_spec (text : String) : String :=
  pyStrip (pyJoinNl ((pySplitNl text).filter fun line =>
    !(pyContains (pyLower line) "credentials")))

/-- The `DebateRecord` assembled by `run_stages`: responses of the three
stages in execution order, configs in caller order. -/
def assembled_record (env : RunEnv) (oracle : Oracle) (topic : DebateTopic)
    (cfgs : List AgentConfig) (a0 a1 a2 : AgentConfig) : DebateRecord :=
  let r0 := (create_agent_execute oracle a0 (build_for_prompt topic)).1
  let r1 := (create_agent_execute oracle a1 (build_against_prompt topic r0.response_text)).1
  let r2 := (create_agent_execute oracle a2
    (build_synthesis_prompt topic r0.response_text r1.response_text)).1
  { debate_id := env.debate_id
    topic := topic
    agents_config := cfgs
    agent_responses := [r0, r1, r2]
    total_execution_time_ms := env.total_time_ms
    created_at := env.created_at }

/-- The process events performed by the three stages of `run_stages`. -/
def stage_events (oracle : Oracle) (topic : DebateTopic) (a0 a1 a2 : AgentConfig) :
    List ProcEvent :=
  let step0 := create_agent_execute oracle a0 (build_for_prompt topic)
  let step1 := create_agent_execute oracle a1 (build_against_prompt topic step0.1.response_text)
  let step2 := create_agent_execute oracle a2
    (build_synthesis_prompt topic step0.1.response_text step1.1.response_text)
  step0.2 ++ step1.2 ++ step2.2

/-- Whether a `run_debate` call returned a record to its caller (rather
than raising). -/
def returned_ok (r : RunResult) : Bool :=
  match r.result with
  | .ok _ => true
  | .error _ => false

/-! ## Concrete fixtures for witnesses and counterexamples -/

/-- Concrete topic used by witnesses. -/
def topic0 : DebateTopic := ⟨"Should AI have legal rights?", "A test topic."⟩

/-- Concrete FOR config (Claude). -/
def cfg_for : AgentConfig :=
  ⟨"Claude FOR", .FOR, .claude, "sonnet", "claude-sonnet-4-5-20250929", 1, 2000, 60⟩

/-- Concrete AGAINST config (Gemini). -/
def cfg_against : AgentConfig :=
  ⟨"Gemini AGAINST", .AGAINST, .gemini, "flash", "gemini-2.5-flash", 1, 2000, 45⟩

/-- Concrete SYNTHESIS config (Claude). -/
def cfg_synthesis : AgentConfig :=
  ⟨"Claude SYNTHESIS", .SYNTHESIS, .claude, "opus", "claude-opus-4-5-20251101", 1, 2000, 60⟩

/-- Concrete config with a one-second timeout. -/
def cfg_short : AgentConfig :=
  ⟨"Claude FOR", .FOR, .claude, "sonnet", "claude-sonnet-4-5-20250929", 1, 2000, 1⟩

/-- Concrete run environment. -/
def env0 : RunEnv := ⟨"debate-1", 0, 100⟩

/-- Oracle on which every command completes normally. -/
def oracle_ok : Oracle := fun _ => .completes "An argument." "" 10

/-- Oracle on which every command times out, with a measured elapsed wall
time of 5000 ms at termination. -/
def oracle_timeout : Oracle := fun _ => .timesOut 5000

/-- Storage backend that always succeeds. -/
def save_ok : DebateRecord → Except PyError String := fun d => .ok d.debate_id

/-- Storage backend that always fails. -/
def save_fail : DebateRecord → Except PyError String := fun _ => .error (.storageError "disk full")

/-! ## Helper lemmas -/

theorem pyContains_of_append (A x B : String) : pyContains (A ++ x ++ B) x = true := by
  simp only [pyContains, decide_eq_true_eq]
  rw [String.data_append, String.data_append]
  exact List.infix_append A.data x.data B.data

theorem pyContains_append_left (A x : String) : pyContains (A ++ x) x = true := by
  simp only [pyContains, decide_eq_true_eq]
  rw [String.data_append]
  exact ⟨A.data, [], by simp⟩

theorem pyContains_append_right (h s x : String) (hx : pyContains h x = true) :
    pyContains (h ++ s) x = true := by
  simp only [pyContains, decide_eq_true_eq] at *
  rw [String.data_append]
  obtain ⟨p, q, hpq⟩ := hx
  exact ⟨p, q ++ s.data, by rw [← hpq]; simp⟩

/-- Lowercasing preserves substring containment; the `"credentials"` check
of `_clean_gemini_output` therefore subsumes its
`"Loaded cached credentials"` check. -/
theorem lower_contains_credentials (line : String)
    (h : pyContains line "Loaded cached credentials" = true) :
    pyContains (pyLower line) "credentials" = true := by
  simp only [pyContains, decide_eq_true_eq] at *
  have h2 : "Loaded cached credentials".data.map Char.toLower <:+: line.data.map Char.toLower :=
    List.IsInfix.map _ h
  have h3 : "credentials".data <:+: "Loaded cached credentials".data.map Char.toLower := by decide
  exact h3.trans h2

/-- The two deletion conditions of `_clean_gemini_output` are equivalent to
the single case-insensitive `"credentials"` condition. -/
theorem clean_gemini_output_eq_spec (text : String) :
    GeminiAgent.clean_gemini_output text = clean_per_spec text := by
  unfold GeminiAgent.clean_gemini_output clean_per_spec
  have hf : (pySplitNl text).filter
      (fun line => !(pyContains line "Loaded cached credentials") &&
        !(pyContains (pyLower line) "credentials")) =
      (pySplitNl text).filter (fun line => !(pyContains (pyLower line) "credentials")) := by
    apply List.filter_congr
    intro line _
    cases hB : pyContains (pyLower line) "credentials"
    · cases hA : pyContains line "Loaded cached credentials"
      · simp
      · exact absurd (lower_contains_credentials line hA) (by simp [hB])
    · simp
  simp only [hf]

theorem validate_ok_iff (cfgs : List AgentConfig) :
    _validate_agents_config cfgs = .ok () ↔ valid_roles cfgs := by
  by_cases hlen : cfgs.length = 3
  · obtain ⟨a, b, c, rfl⟩ := List.length_eq_three.mp hlen
    cases ha : a.role <;> cases hb : b.role <;> cases hc : c.role <;>
      simp +decide [_validate_agents_config, valid_roles, ha, hb, hc]
  · constructor
    · intro h
      exfalso
      unfold _validate_agents_config at h
      rw [if_pos hlen] at h
      exact Except.noConfusion h
    · intro h
      exact absurd h.1 hlen

/-- Every failure of `_validate_agents_config` is a `ValueError`. -/
theorem validate_error_form (cfgs : List AgentConfig) :
    _validate_agents_config cfgs = .ok () ∨
    ∃ msg, _validate_agents_config cfgs = .error (.valueError msg) := by
  simp only [_validate_agents_config]
  split
  · exact .inr ⟨_, rfl⟩
  · split
    · exact .inr ⟨_, rfl⟩
    · split
      · exact .inr ⟨_, rfl⟩
      · exact .inl rfl

theorem sort_roles_of_valid (cfgs : List AgentConfig) (h : valid_roles cfgs) :
    (_sort_agents_by_role cfgs).map (fun a => a.role) = [Role.FOR, Role.AGAINST, Role.SYNTHESIS] := by
  obtain ⟨hlen, hms⟩ := h
  obtain ⟨a, b, c, rfl⟩ := List.length_eq_three.mp hlen
  cases ha : a.role <;> cases hb : b.role <;> cases hc : c.role <;>
    simp_all +decide [_sort_agents_by_role, role_order]

/-- A valid config list sorts into three agents carrying the three roles in
execution order. -/
theorem sort_of_valid (cfgs : List AgentConfig) (h : valid_roles cfgs) :
    ∃ a0 a1 a2, _sort_agents_by_role cfgs = [a0, a1, a2] ∧
      a0.role = Role.FOR ∧ a1.role = Role.AGAINST ∧ a2.role = Role.SYNTHESIS := by
  have hm := sort_roles_of_valid cfgs h
  match hs : _sort_agents_by_role cfgs with
  | [a0, a1, a2] =>
    rw [hs] at hm
    simp only [List.map_cons, List.map_nil, List.cons.injEq, and_true] at hm
    exact ⟨a0, a1, a2, rfl, hm.1, hm.2.1, hm.2.2⟩
  | [] => rw [hs] at hm; exact absurd hm (by simp)
  | [_] => rw [hs] at hm; exact absurd hm (by simp)
  | [_, _] => rw [hs] at hm; exact absurd hm (by simp)
  | _ :: _ :: _ :: _ :: _ => rw [hs] at hm; exact absurd hm (by simp)

/-- Unfolding `run_debate` on a valid, sorted configuration. -/
theorem run_debate_unfold (env : RunEnv) (oracle : Oracle)
    (save : DebateRecord → Except PyError String) (topic : DebateTopic)
    (cfgs : List AgentConfig) (a0 a1 a2 : AgentConfig)
    (hval : _validate_agents_config cfgs = .ok ())
    (hsort : _sort_agents_by_role cfgs = [a0, a1, a2]) :
    run_debate env oracle save topic cfgs = run_stages env oracle save topic cfgs a0 a1 a2 := by
  unfold run_debate
  rw [hval, hsort]

theorem claude_execute_role (oracle : Oracle) (config : AgentConfig) (prompt : String) :
    (ClaudeAgent.execute oracle config prompt).1.role = config.role := by
  simp only [ClaudeAgent.execute]
  cases h : oracle (ClaudeAgent.build_command config prompt) <;> rfl

theorem gemini_execute_role (oracle : Oracle) (config : AgentConfig) (prompt : String) :
    (GeminiAgent.execute oracle config prompt).1.role = config.role := by
  simp only [GeminiAgent.execute]
  cases h : oracle (GeminiAgent.build_command config prompt) <;> rfl

/-- Every agent invocation reports the config's role in its response. -/
theorem execute_role (oracle : Oracle) (config : AgentConfig) (prompt : String) :
    (create_agent_execute oracle config prompt).1.role = config.role := by
  unfold create_agent_execute
  cases hp : config.model_provider
  · exact claude_execute_role oracle config prompt
  · exact gemini_execute_role oracle config prompt

/-- `run_stages` assembles `assembled_record`, performs `stage_events`, and
returns or raises depending only on the storage backend's answer. -/
theorem run_stages_eq (env : RunEnv) (oracle : Oracle)
    (save : DebateRecord → Except PyError String) (topic : DebateTopic)
    (cfgs : List AgentConfig) (a0 a1 a2 : AgentConfig) :
    run_stages env oracle save topic cfgs a0 a1 a2 =
      match save (assembled_record env oracle topic cfgs a0 a1 a2) with
      | .error e => ⟨.error e, stage_events oracle topic a0 a1 a2,
          [assembled_record env oracle topic cfgs a0 a1 a2]⟩
      | .ok _ => ⟨.ok (assembled_record env oracle topic cfgs a0 a1 a2),
          stage_events oracle topic a0 a1 a2,
          [assembled_record env oracle topic cfgs a0 a1 a2]⟩ := rfl

/-! ## Claims -/

/-- C1: for every topic and every string X, `build_against_prompt(topic, X)`
contains X as an exact substring of the returned prompt, and for all strings
X and Y, `build_synthesis_prompt(topic, X, Y)` contains both X and Y as
exact substrings (`pyContains` is the Python `in` substring test); the prior
text is embedded verbatim, with no truncation, escaping or summarization. -/
theorem C1_prompts_embed_prior_responses (topic : DebateTopic) (x y : String) :
    pyContains (build_against_prompt topic x) x = true ∧
    pyContains (build_synthesis_prompt topic x y) x = true ∧
    pyContains (build_synthesis_prompt topic x y) y = true := by
  refine ⟨?_, ?_, ?_⟩
  · unfold build_against_prompt
    exact pyContains_of_append _ x _
  · unfold build_synthesis_prompt
    exact pyContains_append_right _ _ _ (pyContains_append_right _ _ _
      (pyContains_append_right _ _ _ (pyContains_append_left _ x)))
  · unfold build_synthesis_prompt
    exact pyContains_of_append _ y _

/-- C2: whenever the configs are not exactly three with role multiset
`{FOR, AGAINST, SYNTHESIS}`, `run_debate` fails with a configuration error
(a `ValueError`) before any agent is invoked: zero process events occur and
no record is created or handed to storage. -/
theorem C2_invalid_config_fails_fast (env : RunEnv) (oracle : Oracle)
    (save : DebateRecord → Except PyError String) (topic : DebateTopic)
    (cfgs : List AgentConfig) (h : ¬ valid_roles cfgs) :
    ∃ msg, run_debate env oracle save topic cfgs = ⟨.error (.valueError msg), [], []⟩ := by
  rcases validate_error_form cfgs with hok | ⟨msg, herr⟩
  · exact absurd ((validate_ok_iff cfgs).mp hok) h
  · refine ⟨msg, ?_⟩
    unfold run_debate
    rw [herr]

/-- Witness for C2: two FOR configs and no SYNTHESIS config. -/
theorem C2_invalid_config_fails_fast_witness :
    ¬ valid_roles [cfg_for, cfg_against, cfg_for] ∧
    ∃ msg, run_debate env0 oracle_ok save_ok topic0 [cfg_for, cfg_against, cfg_for] =
      ⟨.error (.valueError msg), [], []⟩ :=
  ⟨by decide,
   C2_invalid_config_fails_fast env0 oracle_ok save_ok topic0 [cfg_for, cfg_against, cfg_for]
     (by decide)⟩

/-- C3: for every valid config set (roles exactly FOR / AGAINST / SYNTHESIS)
and a succeeding storage backend, the record returned by `run_debate` lists
`agent_responses` in execution order FOR, AGAINST, SYNTHESIS regardless of
the order the configs were supplied in, while `agents_config` keeps the
caller-supplied order. -/
theorem C3_responses_in_execution_order (env : RunEnv) (oracle : Oracle)
    (save : DebateRecord → Except PyError String) (topic : DebateTopic)
    (cfgs : List AgentConfig) (hv : valid_roles cfgs)
    (hsave : ∀ d, ∃ s, save d = Except.ok s) :
    ∃ rec, (run_debate env oracle save topic cfgs).result = .ok rec ∧
      rec.agent_responses.map (fun r => r.role) = [Role.FOR, Role.AGAINST, Role.SYNTHESIS] ∧
      rec.agents_config = cfgs := by
  obtain ⟨a0, a1, a2, hsort, h0, h1, h2⟩ := sort_of_valid cfgs hv
  have hval := (validate_ok_iff cfgs).mpr hv
  rw [run_debate_unfold env oracle save topic cfgs a0 a1 a2 hval hsort, run_stages_eq]
  obtain ⟨s, hs⟩ := hsave (assembled_record env oracle topic cfgs a0 a1 a2)
  rw [hs]
  refine ⟨assembled_record env oracle topic cfgs a0 a1 a2, rfl, ?_, rfl⟩
  simp [assembled_record, execute_role, h0, h1, h2]

/-- Witness for C3: configs supplied in order SYNTHESIS, FOR, AGAINST. -/
theorem C3_responses_in_execution_order_witness :
    valid_roles [cfg_synthesis, cfg_for, cfg_against] ∧
    ∃ rec, (run_debate env0 oracle_ok save_ok topic0
        [cfg_synthesis, cfg_for, cfg_against]).result = .ok rec ∧
      rec.agent_responses.map (fun r => r.role) = [Role.FOR, Role.AGAINST, Role.SYNTHESIS] ∧
      rec.agents_config = [cfg_synthesis, cfg_for, cfg_against] :=
  ⟨by decide,
   C3_responses_in_execution_order env0 oracle_ok save_ok topic0
     [cfg_synthesis, cfg_for, cfg_against] (by decide) (fun d => ⟨d.debate_id, rfl⟩)⟩

/-- C4: an agent invocation never propagates a failure: each failure mode of
the subprocess — timeout, command not found, any other exception — is caught
and converted into an `AgentResponse` with `success = false` and the
failure's message as `error_message` (the embedding is total, so nothing
escapes; this theorem pins down the converted responses). -/
theorem C4_failures_converted_to_responses (oracle : Oracle) (config : AgentConfig)
    (prompt : String) :
    (∀ elapsed, oracle (agent_command config prompt) = .timesOut elapsed →
      (create_agent_execute oracle config prompt).1.success = false ∧
      (create_agent_execute oracle config prompt).1.error_message =
        some (timeout_error_message config)) ∧
    (oracle (agent_command config prompt) = .notFound →
      (create_agent_execute oracle config prompt).1.success = false ∧
      (create_agent_execute oracle config prompt).1.error_message =
        some (not_found_message (agent_command config prompt))) ∧
    (∀ msg, oracle (agent_command config prompt) = .raises msg →
      (create_agent_execute oracle config prompt).1.success = false ∧
      (create_agent_execute oracle config prompt).1.error_message = some msg) := by
  unfold agent_command create_agent_execute
  cases hp : config.model_provider <;>
    refine ⟨fun elapsed he => ?_, fun hn => ?_, fun msg hm => ?_⟩ <;>
    simp_all [ClaudeAgent.execute, GeminiAgent.execute, timeout_response, failure_response]

/-- Witness for C4: a subprocess that raises an arbitrary exception. -/
theorem C4_failures_converted_to_responses_witness :
    (create_agent_execute (fun _ => .raises "boom") cfg_for "p").1.success = false ∧
    (create_agent_execute (fun _ => .raises "boom") cfg_for "p").1.error_message = some "boom" :=
  (C4_failures_converted_to_responses (fun _ => .raises "boom") cfg_for "p").2.2 "boom" rfl

/-- C5 counterexample: the subprocess times out and the measured elapsed
wall time up to termination (carried by the oracle's outcome) is 5000 ms,
but `execute` sets `execution_time_ms` to the configured timeout
`timeout_seconds * 1000 = 1000` — not to the elapsed wall time, which the
Python code computes in the timeout branch and then discards. -/
theorem C5_counterexample :
    oracle_timeout (ClaudeAgent.build_command cfg_short "p") = .timesOut 5000 ∧
    (ClaudeAgent.execute oracle_timeout cfg_short "p").1.success = false ∧
    (ClaudeAgent.execute oracle_timeout cfg_short "p").1.execution_time_ms = 1000 ∧
    (ClaudeAgent.execute oracle_timeout cfg_short "p").1.execution_time_ms ≠ 5000 := by
  decide

/-- C5 (amended): when an agent invocation times out, `execute` kills the
child process and awaits its termination (the kill / wait event pair), and
returns an `AgentResponse` with `success = false`, an `error_message`
describing the timeout, and `execution_time_ms` set to the configured
timeout `timeout_seconds * 1000` (not to the measured elapsed wall time). -/
theorem C5_timeout_behavior (oracle : Oracle) (config : AgentConfig) (prompt : String)
    (elapsed : Nat) (h : oracle (agent_command config prompt) = .timesOut elapsed) :
    (create_agent_execute oracle config prompt).1.success = false ∧
    (create_agent_execute oracle config prompt).1.error_message =
      some (timeout_error_message config) ∧
    (create_agent_execute oracle config prompt).1.execution_time_ms =
      config.timeout_seconds * 1000 ∧
    (create_agent_execute oracle config prompt).2 =
      [.spawn (agent_command config prompt), .kill, .wait] := by
  unfold agent_command create_agent_execute
  unfold agent_command at h
  cases hp : config.model_provider <;> rw [hp] at h <;>
    simp_all [ClaudeAgent.execute, GeminiAgent.execute, timeout_response]

/-- Witness for C5 (amended): concrete timeout with measured elapsed time
5000 ms and a one-second configured timeout. -/
theorem C5_timeout_behavior_witness :
    oracle_timeout (agent_command cfg_short "p") = .timesOut 5000 ∧
    ((create_agent_execute oracle_timeout cfg_short "p").1.success = false ∧
     (create_agent_execute oracle_timeout cfg_short "p").1.error_message =
       some (timeout_error_message cfg_short) ∧
     (create_agent_execute oracle_timeout cfg_short "p").1.execution_time_ms =
       cfg_short.timeout_seconds * 1000 ∧
     (create_agent_execute oracle_timeout cfg_short "p").2 =
       [.spawn (agent_command cfg_short "p"), .kill, .wait]) :=
  ⟨rfl, C5_timeout_behavior oracle_timeout cfg_short "p" 5000 rfl⟩

/-- C6: a failure in one stage never aborts the debate.  For every oracle —
in particular any on which the FOR or AGAINST invocation fails — and a
succeeding storage backend, `run_debate` on a valid config set completes
with exactly three `AgentResponse`s, and the AGAINST and SYNTHESIS stages
execute with prompts built unconditionally from the earlier stages'
`response_text` (failed or not). -/
theorem C6_stage_failure_does_not_abort (env : RunEnv) (oracle : Oracle)
    (save : DebateRecord → Except PyError String) (topic : DebateTopic)
    (cfgs : List AgentConfig) (hv : valid_roles cfgs)
    (hsave : ∀ d, ∃ s, save d = Except.ok s) :
    ∃ a0 a1 a2 rec, _sort_agents_by_role cfgs = [a0, a1, a2] ∧
      (run_debate env oracle save topic cfgs).result = .ok rec ∧
      rec.agent_responses.length = 3 ∧
      rec.agent_responses =
        [(create_agent_execute oracle a0 (build_for_prompt topic)).1,
         (create_agent_execute oracle a1 (build_against_prompt topic
           (create_agent_execute oracle a0 (build_for_prompt topic)).1.response_text)).1,
         (create_agent_execute oracle a2 (build_synthesis_prompt topic
           (create_agent_execute oracle a0 (build_for_prompt topic)).1.response_text
           (create_agent_execute oracle a1 (build_against_prompt topic
             (create_agent_execute oracle a0
               (build_for_prompt topic)).1.response_text)).1.response_text)).1] := by
  obtain ⟨a0, a1, a2, hsort, h0, h1, h2⟩ := sort_of_valid cfgs hv
  have hval := (validate_ok_iff cfgs).mpr hv
  rw [run_debate_unfold env oracle save topic cfgs a0 a1 a2 hval hsort, run_stages_eq]
  obtain ⟨s, hs⟩ := hsave (assembled_record env oracle topic cfgs a0 a1 a2)
  rw [hs]
  exact ⟨a0, a1, a2, assembled_record env oracle topic cfgs a0 a1 a2, hsort, rfl, rfl, rfl⟩

/-- Witness for C6: an oracle on which every invocation (in particular the
FOR stage) times out; the debate still completes with three responses. -/
theorem C6_stage_failure_does_not_abort_witness :
    valid_roles [cfg_for, cfg_against, cfg_synthesis] ∧
    ∃ a0 a1 a2 rec,
      _sort_agents_by_role [cfg_for, cfg_against, cfg_synthesis] = [a0, a1, a2] ∧
      (run_debate env0 oracle_timeout save_ok topic0
        [cfg_for, cfg_against, cfg_synthesis]).result = .ok rec ∧
      rec.agent_responses.length = 3 ∧
      rec.agent_responses =
        [(create_agent_execute oracle_timeout a0 (build_for_prompt topic0)).1,
         (create_agent_execute oracle_timeout a1 (build_against_prompt topic0
           (create_agent_execute oracle_timeout a0 (build_for_prompt topic0)).1.response_text)).1,
         (create_agent_execute oracle_timeout a2 (build_synthesis_prompt topic0
           (create_agent_execute oracle_timeout a0 (build_for_prompt topic0)).1.response_text
           (create_agent_execute oracle_timeout a1 (build_against_prompt topic0
             (create_agent_execute oracle_timeout a0
               (build_for_prompt topic0)).1.response_text)).1.response_text)).1] :=
  ⟨by decide,
   C6_stage_failure_does_not_abort env0 oracle_timeout save_ok topic0
     [cfg_for, cfg_against, cfg_synthesis] (by decide) (fun d => ⟨d.debate_id, rfl⟩)⟩

/-- C7 counterexample: on a valid configuration with a storage backend that
fails, `run_debate` raises the store failure — the assembled record is
handed to the store (`saved.length = 1`) but it is NOT returned to the
caller (`returned_ok = false`), because the `save_debate` exception
propagates before the `return debate` statement runs.  This refutes the
claim's "the debate record is still returned to the caller's reference even
when persistence fails". -/
theorem C7_counterexample :
    (run_debate env0 oracle_ok save_fail topic0
      [cfg_for, cfg_against, cfg_synthesis]).result = .error (.storageError "disk full") ∧
    returned_ok (run_debate env0 oracle_ok save_fail topic0
      [cfg_for, cfg_against, cfg_synthesis]) = false ∧
    (run_debate env0 oracle_ok save_fail topic0
      [cfg_for, cfg_against, cfg_synthesis]).saved.length = 1 := by
  decide

/-- C7 (amended): if persisting the assembled record fails, `run_debate`
propagates the store failure to its caller as the call's error — the
failure is never silently swallowed — and the record, although fully
assembled and handed to the store, is NOT returned to the caller. -/
theorem C7_storage_failure_propagates (env : RunEnv) (oracle : Oracle)
    (save : DebateRecord → Except PyError String) (topic : DebateTopic)
    (cfgs : List AgentConfig) (e : PyError) (hv : valid_roles cfgs)
    (hsave : ∀ d, save d = Except.error e) :
    (run_debate env oracle save topic cfgs).result = .error e ∧
    returned_ok (run_debate env oracle save topic cfgs) = false ∧
    (run_debate env oracle save topic cfgs).saved.length = 1 := by
  obtain ⟨a0, a1, a2, hsort, h0, h1, h2⟩ := sort_of_valid cfgs hv
  have hval := (validate_ok_iff cfgs).mpr hv
  rw [run_debate_unfold env oracle save topic cfgs a0 a1 a2 hval hsort, run_stages_eq,
    hsave (assembled_record env oracle topic cfgs a0 a1 a2)]
  exact ⟨rfl, rfl, rfl⟩

/-- Witness for C7 (amended): concrete failing storage backend. -/
theorem C7_storage_failure_propagates_witness :
    valid_roles [cfg_for, cfg_against, cfg_synthesis] ∧
    ((run_debate env0 oracle_ok save_fail topic0
        [cfg_for, cfg_against, cfg_synthesis]).result = .error (.storageError "disk full") ∧
     returned_ok (run_debate env0 oracle_ok save_fail topic0
        [cfg_for, cfg_against, cfg_synthesis]) = false ∧
     (run_debate env0 oracle_ok save_fail topic0
        [cfg_for, cfg_against, cfg_synthesis]).saved.length = 1) :=
  ⟨by decide,
   C7_storage_failure_propagates env0 oracle_ok save_fail topic0
     [cfg_for, cfg_against, cfg_synthesis] (.storageError "disk full") (by decide)
     (fun _ => rfl)⟩

/-- C8: every `AgentResponse` produced by an agent invocation satisfies the
invariant that `success = true` exactly when `error_message` is absent
(`none`); equivalently, `success = false` implies an error message is
present and `success = true` implies it is absent. -/
theorem C8_success_iff_no_error_message (oracle : Oracle) (config : AgentConfig)
    (prompt : String) :
    ((create_agent_execute oracle config prompt).1.success = true) ↔
      ((create_agent_execute oracle config prompt).1.error_message = none) := by
  unfold create_agent_execute
  cases hp : config.model_provider
  · simp only [ClaudeAgent.execute]
    cases h : oracle (ClaudeAgent.build_command config prompt) <;>
      simp [Agent.parse_response, timeout_response, failure_response]
  · simp only [GeminiAgent.execute]
    cases h : oracle (GeminiAgent.build_command config prompt) <;>
      simp [GeminiAgent.parse_response, timeout_response, failure_response]

/-- C9 counterexample: `DebateTopic` declares no value-level validator, so
constructing a topic with an empty title and an empty description succeeds —
it is not rejected, refuting the claim's "constructing a Topic with an empty
title or empty description is rejected". -/
theorem C9_counterexample : mk_topic "" "" = .ok ⟨"", ""⟩ := rfl

/-- C9 (amended): every Topic consists of a title and a description string;
both fields are required, but no non-emptiness validation is performed —
construction succeeds for every pair of strings, including empty ones. -/
theorem C9_topic_construction_unvalidated (title description : String) :
    mk_topic title description = .ok ⟨title, description⟩ := rfl

/-- C10: for every Gemini invocation that completes normally, the returned
`response_text` equals the standard output with every line containing the
substring "credentials" (in any letter case) removed, the remaining lines
rejoined with newlines and surrounding whitespace stripped
(`clean_per_spec`, stated from the claim's wording) — so answer lines that
mention credentials are silently dropped; Claude responses are only
whitespace-stripped. -/
theorem C10_gemini_output_sanitization (oracle : Oracle) (config : AgentConfig)
    (prompt stdout stderr : String) (t : Nat) :
    (oracle (GeminiAgent.build_command config prompt) = .completes stdout stderr t →
      (GeminiAgent.execute oracle config prompt).1.response_text = clean_per_spec stdout) ∧
    (oracle (ClaudeAgent.build_command config prompt) = .completes stdout stderr t →
      (ClaudeAgent.execute oracle config prompt).1.response_text = pyStrip stdout) := by
  constructor
  · intro h
    simp only [GeminiAgent.execute, h, GeminiAgent.parse_response]
    by_cases hs : stdout = ""
    · subst hs
      rw [if_pos rfl]
      decide
    · rw [if_neg hs, clean_gemini_output_eq_spec]
  · intro h
    simp only [ClaudeAgent.execute, h, Agent.parse_response]
    by_cases hs : stdout = ""
    · subst hs
      rw [if_pos rfl]
      decide
    · rw [if_neg hs]

/-- Witness for C10: a Gemini stdout in which one answer line mentions
credentials in mixed case; that line is silently dropped. -/
theorem C10_gemini_output_sanitization_witness :
    ((fun _ => SubprocBehavior.completes
        "Loaded cached CREDENTIALS\nanswer line\nmy Credentials are safe\nBye" "" 3 : Oracle)
      (GeminiAgent.build_command cfg_against "p") =
      .completes "Loaded cached CREDENTIALS\nanswer line\nmy Credentials are safe\nBye" "" 3) ∧
    ((GeminiAgent.execute
        (fun _ => SubprocBehavior.completes
          "Loaded cached CREDENTIALS\nanswer line\nmy Credentials are safe\nBye" "" 3)
        cfg_against "p").1.response_text =
      clean_per_spec "Loaded cached CREDENTIALS\nanswer line\nmy Credentials are safe\nBye") ∧
    clean_per_spec "Loaded cached CREDENTIALS\nanswer line\nmy Credentials are safe\nBye" =
      "answer line\nBye" :=
  ⟨rfl,
   (C10_gemini_output_sanitization
     (fun _ => SubprocBehavior.completes
       "Loaded cached CREDENTIALS\nanswer line\nmy Credentials are safe\nBye" "" 3)
     cfg_against "p"
     "Loaded cached CREDENTIALS\nanswer line\nmy Credentials are safe\nBye" "" 3).1 rfl,
   by decide⟩

end Debate
